import Mathlib

/-!
Shallow embedding of the two scripts of the Reparaturbonus repository
(`scripts/analyser.py` and `scripts/bike_shops_vienna_scraper.py`),
together with theorems settling the specification claims about them.

Python scalar values that can appear in a pandas cell are embedded as
`PyVal` (a finite float, the float NaN, a string, or Python `None`);
machine floats are idealised as rationals.  Python exceptions that can
escape the modelled code are embedded with `Except`.
-/

/-- A Python scalar value as it can appear in a table cell:
a finite float (idealised as a rational), the float NaN,
a string, or Python `None`. -/
inductive PyVal where
  | num (q : ℚ)
  | nan
  | str (s : String)
  | none
deriving DecidableEq, Repr

/-- The Python exceptions that can escape the modelled fragments. -/
inductive PyErr where
  | typeError
  | zeroDivisionError
deriving DecidableEq, Repr

/-- Python `round(x, 2)`: rounding to two decimal places
(rounding of the half-way cases does not matter for any claim here,
since both the code model and the spec formula use this same function). -/
def round2 (q : ℚ) : ℚ := (round (q * 100) : ℤ) / 100

/-- The fixed CPI table `cpi_2015_base` of `analyser.py` (lines 9-21),
as a partial map from calendar year to index value; `Option.none`
models a `KeyError` on lookup. -/
def cpi_2015_base (year : ℤ) : Option ℚ :=
  if year = 2015 then some 100
  else if year = 2016 then some (1009 / 10)
  else if year = 2017 then some 103
  else if year = 2018 then some (1051 / 10)
  else if year = 2019 then some (1067 / 10)
  else if year = 2020 then some (1082 / 10)
  else if year = 2021 then some (1112 / 10)
  else if year = 2022 then some (1207 / 10)
  else if year = 2023 then some (1301 / 10)
  else if year = 2024 then some 134
  else if year = 2025 then some (13678 / 100)
  else Option.none

/-- `adjust_for_inflation` of `analyser.py` (lines 23-29).
The two table lookups happen first; a `KeyError` on either is caught
and yields `None`.  The multiplication `price * (cpi_target / cpi_base)`
is only reached when both lookups succeed: there a string or `None`
price raises an uncaught `TypeError` (only `KeyError` is caught),
while a NaN price silently propagates NaN. -/
def adjust_for_inflation (price : PyVal) (base_year : ℤ) (target_year : ℤ := 2025) :
    Except PyErr (Option PyVal) :=
  match cpi_2015_base base_year with
  | Option.none => .ok Option.none
  | Option.some cpi_base =>
    match cpi_2015_base target_year with
    | Option.none => .ok Option.none
    | Option.some cpi_target =>
      match price with
      | .num q => .ok (some (.num (round2 (q * (cpi_target / cpi_base)))))
      | .nan => .ok (some .nan)
      | .str _ => .error .typeError
      | .none => .error .typeError

/-- Numeric value of a list of decimal digit characters. -/
def digitsVal (ds : List Char) : ℕ :=
  ds.foldl (fun n c => 10 * n + (c.toNat - 48)) 0

/-- Exponent part of a Python float literal: either nothing, or
`e`/`E`, an optional sign, and a nonempty run of digits ending the
string. -/
def parseExpPart (cs : List Char) (m : ℚ) : Option ℚ :=
  match cs with
  | [] => some m
  | 'e' :: r | 'E' :: r =>
    let sr : Int × List Char :=
      match r with
      | '+' :: r2 => (1, r2)
      | '-' :: r2 => (-1, r2)
      | _ => (1, r)
    let ds := sr.2.takeWhile Char.isDigit
    let tail := sr.2.dropWhile Char.isDigit
    if ds.isEmpty || !tail.isEmpty then Option.none
    else if sr.1 = 1 then some (m * 10 ^ digitsVal ds)
    else some (m / 10 ^ digitsVal ds)
  | _ => Option.none

/-- Mantissa of a Python float literal: digits with an optional decimal
point (at least one digit overall), followed by an optional exponent. -/
def parseMantissa (cs : List Char) : Option ℚ :=
  let ip := cs.takeWhile Char.isDigit
  let rest := cs.dropWhile Char.isDigit
  match rest with
  | '.' :: rest2 =>
    let fp := rest2.takeWhile Char.isDigit
    let rest3 := rest2.dropWhile Char.isDigit
    if ip.isEmpty && fp.isEmpty then Option.none
    else parseExpPart rest3 ((digitsVal ip : ℚ) + (digitsVal fp : ℚ) / 10 ^ fp.length)
  | _ =>
    if ip.isEmpty then Option.none
    else parseExpPart rest (digitsVal ip : ℚ)

/-- The whitespace stripping `float(s)` performs on its string
argument, as a function on the character list. -/
def pyStrip (s : String) : List Char :=
  ((s.data.dropWhile Char.isWhitespace).reverse.dropWhile Char.isWhitespace).reverse

/-- Python's `float(s)` on a string, restricted to finite decimal
literals (optional surrounding whitespace, optional sign, digits with
optional decimal point and optional exponent).  The special words
`inf`/`infinity`/`nan` and digit-grouping underscores that Python also
accepts are not modelled; no analysed claim depends on them. -/
def parseFloat (s : String) : Option ℚ :=
  match pyStrip s with
  | '+' :: cs => parseMantissa cs
  | '-' :: cs => (parseMantissa cs).map (fun q => -q)
  | cs => parseMantissa cs

/-- `is_float` of `analyser.py` (lines 37-44): `pd.isna(val)` is true
exactly for `None` and NaN; `val == ""` is true exactly for the empty
string (comparing a number to `""` is `False` in Python, not an error);
otherwise the result is whether `float(val)` succeeds.  All exceptions
are caught, so the predicate is total. -/
def is_float (val : PyVal) : Bool :=
  match val with
  | .none => false
  | .nan => false
  | .num _ => true
  | .str s => if s = "" then false else (parseFloat s).isSome

/-- Python's `float(val)` where it returns a finite float: the identity
on finite floats, literal parsing on strings; `None` raises and NaN
stays NaN, so neither yields a finite value.  Used only under an
`is_float` guard, which excludes those two cases. -/
def pyFloat (val : PyVal) : Option ℚ :=
  match val with
  | .num q => some q
  | .str s => parseFloat s
  | .nan => Option.none
  | .none => Option.none

/-- The `Price Increase (%)` cell of `analyser.py` (lines 105-112),
as a function of the row's `Current Price` cell and its
`First Price (Inflation adjusted)` cell.  When both cells pass
`is_float`, Python evaluates
`round((float(cur) - float(adj)) / float(adj) * 100, 2)`;
a zero adjusted price raises an uncaught `ZeroDivisionError`
(Python float division by `0.0` raises, it does not produce `inf`).
Otherwise the cell is `None`. -/
def price_increase_cell (current_price : PyVal) (adjusted : PyVal) :
    Except PyErr (Option ℚ) :=
  if is_float current_price && is_float adjusted then
    match pyFloat current_price, pyFloat adjusted with
    | some c, some a =>
      if a = 0 then .error .zeroDivisionError
      else .ok (some (round2 ((c - a) / a * 100)))
    | _, _ => .error .typeError
  else .ok Option.none

/-- A calendar date as produced by `pd.to_datetime` (time-of-day plays
no role in the modelled comparisons). -/
structure PyDate where
  year : ℤ
  month : ℤ
  day : ℤ
deriving DecidableEq, Repr

/-- Chronological (lexicographic) comparison of dates, as used by the
pandas `<` comparison against `2021-01-01`. -/
def dateLt (a b : PyDate) : Bool :=
  if a.year ≠ b.year then a.year < b.year
  else if a.month ≠ b.month then a.month < b.month
  else a.day < b.day

/-- One row of the Analyzer's `yes_subset` table after date coercion
(lines 86-90 of `analyser.py`): the fields the partitioning and the
derived price columns read.  `Option.none` for a date models `NaT`
(an unparseable or missing date after `errors="coerce"`). -/
structure ShopRow where
  offersRepair : PyVal
  firstPrice : PyVal
  currentPrice : PyVal
  firstPriceDate : Option PyDate
  currentPriceDate : Option PyDate
deriving DecidableEq, Repr

/-- `condition_first_before_2021` of `analyser.py` (line 93):
`NaT < "2021-01-01"` is `False` in pandas. -/
def condition_first_before_2021 (r : ShopRow) : Bool :=
  match r.firstPriceDate with
  | some d => dateLt d ⟨2021, 1, 1⟩
  | Option.none => false

/-- `condition_current_in_2025` of `analyser.py` (line 94):
`NaT.dt.year` is NaN and `NaN == 2025` is `False`. -/
def condition_current_in_2025 (r : ShopRow) : Bool :=
  match r.currentPriceDate with
  | some d => d.year = 2025
  | Option.none => false

/-- `subset_a` of `analyser.py` (line 97): the qualifying partition. -/
def subset_a (rows : List ShopRow) : List ShopRow :=
  rows.filter (fun r => condition_first_before_2021 r && condition_current_in_2025 r)

/-- `subset_b` of `analyser.py` (line 98): the rest partition,
selected by the negated conjunction. -/
def subset_b (rows : List ShopRow) : List ShopRow :=
  rows.filter (fun r => !(condition_first_before_2021 r && condition_current_in_2025 r))

/-- The `price_info` lambda of `analyser.py` (lines 64-72), as a
function of the two validity flags. -/
def price_info (first_valid current_valid : Bool) : String :=
  if first_valid && current_valid then "both"
  else if first_valid then "only_first"
  else if current_valid then "only_current"
  else "none"

/-- The `price_info` cell of a row: the lambda applied to the
`First_Price_Valid` and `Current_Price_Valid` flags computed by
`is_float` (lines 48-49 of `analyser.py`). -/
def price_info_row (r : ShopRow) : String :=
  price_info (is_float r.firstPrice) (is_float r.currentPrice)

/-- The outcome of the Wayback CDX request made by
`get_oldest_and_newest_archive_date`: either some exception during the
request or JSON decoding (network error, timeout, malformed body), or
a status code together with the decoded JSON array-of-arrays. -/
inductive CdxResult where
  | exn
  | resp (status : ℤ) (data : List (List String))
deriving DecidableEq, Repr

/-- The timestamp reformatting of `bike_shops_vienna_scraper.py`
(lines 76-77): `ts[:4] + "-" + ts[4:6] + "-" + ts[6:8]`, Python string
slices being code-point slices that truncate silently. -/
def format_archive_date (ts : String) : String :=
  ⟨ts.data.take 4 ++ '-' :: (ts.data.drop 4).take 2 ++ '-' :: (ts.data.drop 6).take 2⟩

/-- `get_oldest_and_newest_archive_date` of
`bike_shops_vienna_scraper.py` (lines 51-82), with the network call
replaced by an explicit `CdxResult` oracle.  An empty URL string is
falsy, so the function returns before any request.  Every exception
inside the `try` block (including an `IndexError` from `entry[1]` on a
short row, modelled by the failing `mapM`, and the one from
`timestamps[0]` on an empty list) is caught and yields `(None, None)`.
Otherwise the timestamps are sorted ascending and the first and last
are reformatted. -/
def get_oldest_and_newest_archive_date (url : String) (net : CdxResult) :
    Option String × Option String :=
  if url = "" then (Option.none, Option.none)
  else
    match net with
    | .exn => (Option.none, Option.none)
    | .resp status data =>
      if status ≠ 200 then (Option.none, Option.none)
      else if data.length < 2 then (Option.none, Option.none)
      else
        match (data.drop 1).mapM (fun entry => entry.get? 1) with
        | Option.none => (Option.none, Option.none)
        | Option.some timestamps =>
          match timestamps.mergeSort (fun a b => a ≤ b) with
          | [] => (Option.none, Option.none)
          | t :: rest =>
            (Option.some (format_archive_date t),
             Option.some (format_archive_date (rest.getLastD t)))

/-- Whether a string has the shape of a 14-digit compact Wayback
timestamp `YYYYMMDDhhmmss`. -/
def isCompactTimestamp (s : String) : Bool :=
  s.data.length = 14 && s.data.all Char.isDigit

/-- Whether a string has the shape `YYYY-MM-DD`: ten characters,
digits everywhere except dashes at positions 4 and 7. -/
def isDashedDate (s : String) : Bool :=
  match s.data with
  | [y1, y2, y3, y4, '-', m1, m2, '-', d1, d2] =>
    y1.isDigit && y2.isDigit && y3.isDigit && y4.isDigit &&
      m1.isDigit && m2.isDigit && d1.isDigit && d2.isDigit
  | _ => false

example : format_archive_date "20190315120000" = "2019-03-15" := rfl
example : (parseFloat "12.5").isSome = true := rfl
example : parseFloat "abc" = Option.none := rfl
example : is_float (.str "") = false := rfl
example : is_float (.str "12.5") = true := rfl
example : is_float (.str "abc") = false := rfl

/-- `round2` is the identity on rationals that are integer multiples of
`1/100`, i.e. on prices already given to at most two decimal places. -/
theorem round2_int_div (k : ℤ) : round2 ((k : ℚ) / 100) = (k : ℚ) / 100 := by
  have h : ((k : ℚ) / 100) * 100 = (k : ℚ) := by
    field_simp
  unfold round2
  rw [h, round_intCast]

set_option maxHeartbeats 1000000 in
/-- Every value in the CPI table is nonzero. -/
theorem cpi_ne_zero (y : ℤ) (c : ℚ) (hc : cpi_2015_base y = some c) : c ≠ 0 := by
  unfold cpi_2015_base at hc
  split_ifs at hc <;>
    simp only [Option.some.injEq, reduceCtorEq] at hc <;>
    rw [← hc] <;> norm_num

/-- When both CPI lookups succeed, `adjust_for_inflation` on a numeric
price computes the rounded rescaling. -/
theorem adjust_num_eq (q : ℚ) (b t : ℤ) (cb ct : ℚ)
    (hb : cpi_2015_base b = some cb) (ht : cpi_2015_base t = some ct) :
    adjust_for_inflation (.num q) b t = .ok (some (.num (round2 (q * (ct / cb))))) := by
  unfold adjust_for_inflation
  rw [hb, ht]

/-- C1: for every numeric price `p` and years `b`, `t`, if both years
are keys of the fixed CPI table, `adjust_for_inflation` returns
`round(p * CPI(t) / CPI(b), 2)`; if either year is absent it returns
`None` without raising. -/
theorem inflation_adjust_spec :
    (∀ (q : ℚ) (b t : ℤ) (cb ct : ℚ),
      cpi_2015_base b = some cb → cpi_2015_base t = some ct →
      adjust_for_inflation (.num q) b t = .ok (some (.num (round2 (q * (ct / cb)))))) ∧
    (∀ (q : ℚ) (b t : ℤ),
      cpi_2015_base b = Option.none ∨ cpi_2015_base t = Option.none →
      adjust_for_inflation (.num q) b t = .ok Option.none) := by
  constructor
  · exact adjust_num_eq
  · intro q b t h
    unfold adjust_for_inflation
    rcases h with h | h
    · rw [h]
    · rw [h]
      cases cpi_2015_base b <;> rfl

/-- Witness for C1 at price 50, years 2019/2025 (both in the table)
and 2014 (absent). -/
theorem inflation_adjust_spec_witness :
    adjust_for_inflation (.num 50) 2019 2025 =
      .ok (some (.num (round2 (50 * ((13678 / 100) / (1067 / 10)))))) ∧
    adjust_for_inflation (.num 50) 2014 2025 = .ok Option.none :=
  ⟨inflation_adjust_spec.1 50 2019 2025 (1067 / 10) (13678 / 100) rfl rfl,
   inflation_adjust_spec.2 50 2014 2025 (Or.inl rfl)⟩

/-- C6: `is_float` is total (it is a Lean function, so it cannot
raise), and it returns `true` exactly on the values that are not
`None`, not NaN, not the empty string, and parse as a float. -/
theorem is_float_spec (v : PyVal) :
    is_float v = true ↔
      (v ≠ PyVal.none ∧ v ≠ PyVal.nan ∧ v ≠ PyVal.str "" ∧ ∃ q, pyFloat v = some q) := by
  cases v with
  | num q => simp [is_float, pyFloat]
  | nan => simp [is_float]
  | str s =>
    by_cases h : s = "" <;>
      simp [is_float, pyFloat, h, Option.isSome_iff_exists]
  | none => simp [is_float]

/-- C7: the `price_info` tag realises the four-way truth table of the
two validity flags, depends on nothing but the two price fields (in
particular not on `offers repair`), and classifies
first `"12.5"` / current `"abc"` as `only_first`. -/
theorem price_info_spec :
    (price_info true true = "both" ∧ price_info true false = "only_first" ∧
      price_info false true = "only_current" ∧ price_info false false = "none") ∧
    (∀ r r' : ShopRow, r.firstPrice = r'.firstPrice → r.currentPrice = r'.currentPrice →
      price_info_row r = price_info_row r') ∧
    (∀ r : ShopRow, r.firstPrice = .str "12.5" → r.currentPrice = .str "abc" →
      price_info_row r = "only_first") := by
  refine ⟨⟨rfl, rfl, rfl, rfl⟩, ?_, ?_⟩
  · intro r r' h1 h2
    unfold price_info_row
    rw [h1, h2]
  · intro r h1 h2
    unfold price_info_row
    rw [h1, h2]
    rfl

/-- Witness for C7: two rows that differ only in `offers repair` get
the same tag, and the spec's example row is tagged `only_first`. -/
theorem price_info_spec_witness :
    price_info_row ⟨.str "Yes", .str "12.5", .str "abc", Option.none, Option.none⟩ =
      price_info_row ⟨.str "No", .str "12.5", .str "abc", Option.none, Option.none⟩ ∧
    price_info_row ⟨.str "Yes", .str "12.5", .str "abc", Option.none, Option.none⟩ =
      "only_first" :=
  ⟨price_info_spec.2.1 _ _ rfl rfl, price_info_spec.2.2 _ rfl rfl⟩

/-- C8, counterexample: the price `1/1000` is positive and `2015` is in
the CPI table, but `adjust_for_inflation` with equal years returns the
rounded value `0`, not the price unchanged. -/
theorem inflation_adjust_id_counterexample :
    (0 : ℚ) < 1 / 1000 ∧
    adjust_for_inflation (.num (1 / 1000)) 2015 2015 ≠ .ok (some (.num (1 / 1000))) := by
  constructor
  · norm_num
  · have h : adjust_for_inflation (.num (1 / 1000)) 2015 2015 = .ok (some (.num 0)) := by
      rw [adjust_num_eq (1 / 1000) 2015 2015 100 100 rfl rfl]
      have hr : round2 ((1 / 1000 : ℚ) * (100 / 100)) = 0 := by
        norm_num [round2, round_eq]
      rw [hr]
    rw [h]
    simp only [ne_eq, Except.ok.injEq, Option.some.injEq, PyVal.num.injEq]
    norm_num

/-- C8, amended: with equal base and target year (present in the
table), `adjust_for_inflation` returns `round(p, 2)`; hence it returns
`p` unchanged exactly on prices with at most two decimal places, such
as any `p = k/100`. -/
theorem inflation_adjust_same_year :
    (∀ (p : ℚ) (y : ℤ) (c : ℚ), cpi_2015_base y = some c →
      adjust_for_inflation (.num p) y y = .ok (some (.num (round2 p)))) ∧
    (∀ (k : ℤ) (y : ℤ) (c : ℚ), cpi_2015_base y = some c →
      adjust_for_inflation (.num ((k : ℚ) / 100)) y y = .ok (some (.num ((k : ℚ) / 100)))) := by
  have base : ∀ (p : ℚ) (y : ℤ) (c : ℚ), cpi_2015_base y = some c →
      adjust_for_inflation (.num p) y y = .ok (some (.num (round2 p))) := by
    intro p y c hc
    rw [adjust_num_eq p y y c c hc hc, div_self (cpi_ne_zero y c hc), mul_one]
  refine ⟨base, fun k y c hc => ?_⟩
  rw [base ((k : ℚ) / 100) y c hc, round2_int_div]

/-- Witness for C8 (amended) at price 50 = 5000/100, year 2019. -/
theorem inflation_adjust_same_year_witness :
    adjust_for_inflation (.num 50) 2019 2019 = .ok (some (.num (round2 50))) ∧
    adjust_for_inflation (.num ((5000 : ℤ) / 100 : ℚ)) 2019 2019 =
      .ok (some (.num ((5000 : ℤ) / 100 : ℚ))) :=
  ⟨inflation_adjust_same_year.1 50 2019 (1067 / 10) rfl,
   inflation_adjust_same_year.2 5000 2019 (1067 / 10) rfl⟩

/-- C9: only `KeyError` is caught in `adjust_for_inflation`; with both
years in the CPI table, a non-numeric string price reaches
`price * (cpi_target / cpi_base)` and raises an uncaught `TypeError`
(which aborts the Analyzer run when a qualifying row's `First Price`
is such a string). -/
theorem inflation_adjust_string_raises (s : String) (b t : ℤ) (cb ct : ℚ)
    (hb : cpi_2015_base b = some cb) (ht : cpi_2015_base t = some ct)
    (hnonnum : parseFloat s = Option.none) :
    adjust_for_inflation (.str s) b t = .error .typeError := by
  unfold adjust_for_inflation
  rw [hb, ht]

/-- Witness for C9 at the non-numeric string `"abc"`, years 2019/2025. -/
theorem inflation_adjust_string_raises_witness :
    adjust_for_inflation (.str "abc") 2019 2025 = .error .typeError :=
  inflation_adjust_string_raises "abc" 2019 2025 (1067 / 10) (13678 / 100) rfl rfl rfl

/-- C2 (the code side of the bug): at a qualifying row whose adjusted
first price is exactly `0.0` and whose current price is the valid
float `130`, the `Price Increase (%)` computation raises an uncaught
`ZeroDivisionError` instead of yielding the null result the design
requires (`is_float` accepts `0.0`, and Python float division by zero
raises). -/
theorem price_increase_zero_divides :
    is_float (.num 0) = true ∧
    price_increase_cell (.num 130) (.num 0) = .error .zeroDivisionError := by
  constructor
  · rfl
  · unfold price_increase_cell
    simp [is_float, pyFloat]

/-- C3, counterexample: at current price `130` and adjusted price `0`
both `is_float` checks pass, yet the cell is neither the rounded
formula value nor null — the computation raises. -/
theorem price_increase_formula_counterexample :
    is_float (.num 130) = true ∧ is_float (.num 0) = true ∧
    price_increase_cell (.num 130) (.num 0) ≠
      .ok (some (round2 ((130 - 0) / 0 * 100))) ∧
    price_increase_cell (.num 130) (.num 0) ≠ .ok Option.none := by
  have h : price_increase_cell (.num 130) (.num 0) = .error .zeroDivisionError := by
    unfold price_increase_cell
    simp [is_float, pyFloat]
  refine ⟨rfl, rfl, ?_, ?_⟩ <;> (rw [h]; exact fun hc => Except.noConfusion hc)

/-- C3, amended: for a qualifying row, if both the current price and
the adjusted first price pass `is_float` and the adjusted value is
nonzero, the cell is `round((cur - adj) / adj * 100, 2)`; if both pass
and the adjusted value is zero the computation raises
`ZeroDivisionError`; otherwise the cell is null. -/
theorem price_increase_cell_spec :
    (∀ (cur adj : PyVal) (c a : ℚ), is_float cur = true → is_float adj = true →
      pyFloat cur = some c → pyFloat adj = some a → a ≠ 0 →
      price_increase_cell cur adj = .ok (some (round2 ((c - a) / a * 100)))) ∧
    (∀ (cur adj : PyVal) (c : ℚ), is_float cur = true → is_float adj = true →
      pyFloat cur = some c → pyFloat adj = some 0 →
      price_increase_cell cur adj = .error .zeroDivisionError) ∧
    (∀ cur adj : PyVal, (is_float cur = false ∨ is_float adj = false) →
      price_increase_cell cur adj = .ok Option.none) := by
  refine ⟨?_, ?_, ?_⟩
  · intro cur adj c a hcur hadj hc ha hne
    unfold price_increase_cell
    rw [hcur, hadj, hc, ha]
    simp [hne]
  · intro cur adj c hcur hadj hc ha
    unfold price_increase_cell
    rw [hcur, hadj, hc, ha]
    simp
  · intro cur adj h
    unfold price_increase_cell
    rcases h with h | h <;> rw [h] <;> simp

/-- Witness for C3 (amended) at current `130`, adjusted `1`. -/
theorem price_increase_cell_spec_witness :
    price_increase_cell (.num 130) (.num 1) =
      .ok (some (round2 ((130 - 1) / 1 * 100))) ∧
    price_increase_cell (.num 130) PyVal.none = .ok Option.none :=
  ⟨price_increase_cell_spec.1 (.num 130) (.num 1) 130 1 rfl rfl rfl rfl one_ne_zero,
   price_increase_cell_spec.2.2 (.num 130) PyVal.none (Or.inr rfl)⟩

/-- The qualifying condition of line 97, as a proposition: the first
price date parses and is before 2021-01-01, and the current price date
parses with year 2025. -/
def QualifyingProp (r : ShopRow) : Prop :=
  (∃ d, r.firstPriceDate = some d ∧ dateLt d ⟨2021, 1, 1⟩ = true) ∧
  (∃ d, r.currentPriceDate = some d ∧ d.year = 2025)

/-- The row-level filter condition of lines 93-97 holds exactly when
`QualifyingProp` does; rows with `NaT` dates fail it. -/
theorem qualifying_iff (r : ShopRow) :
    (condition_first_before_2021 r && condition_current_in_2025 r) = true ↔
      QualifyingProp r := by
  unfold QualifyingProp condition_first_before_2021 condition_current_in_2025
  cases hf : r.firstPriceDate <;> cases hc : r.currentPriceDate <;> simp

/-- C5: a row of the yes-restricted subset lands in `subset_a` iff its
first price date is before 2021-01-01 and its current price date has
year 2025 (null dates failing the condition), lands in `subset_b` iff
not, and lands in exactly one of the two partitions. -/
theorem subset_partition_spec (rows : List ShopRow) (r : ShopRow) (hmem : r ∈ rows) :
    (r ∈ subset_a rows ↔ QualifyingProp r) ∧
    (r ∈ subset_b rows ↔ ¬QualifyingProp r) ∧
    ((r ∈ subset_a rows ∧ r ∉ subset_b rows) ∨ (r ∈ subset_b rows ∧ r ∉ subset_a rows)) := by
  have ha : r ∈ subset_a rows ↔ QualifyingProp r := by
    rw [subset_a, List.mem_filter, ← qualifying_iff r]
    simp [hmem]
  have hb : r ∈ subset_b rows ↔ ¬QualifyingProp r := by
    rw [subset_b, List.mem_filter, ← qualifying_iff r]
    simp [hmem]
    cases h1 : condition_first_before_2021 r <;> simp [h1]
  refine ⟨ha, hb, ?_⟩
  by_cases hq : QualifyingProp r
  · exact Or.inl ⟨ha.mpr hq, fun hin => (hb.mp hin) hq⟩
  · exact Or.inr ⟨hb.mpr hq, fun hin => hq (ha.mp hin)⟩

/-- Witness for C5: a one-row list whose row has first price date
2019-06-01 and current price date 2025-02-10 is routed to `subset_a`,
and a row with first price date 2022-01-01 (not before 2021) is routed
to `subset_b`. -/
theorem subset_partition_spec_witness :
    (⟨.str "Yes", .num 100, .num 130, some ⟨2019, 6, 1⟩, some ⟨2025, 2, 10⟩⟩ : ShopRow) ∈
      subset_a [⟨.str "Yes", .num 100, .num 130, some ⟨2019, 6, 1⟩, some ⟨2025, 2, 10⟩⟩] ∧
    (⟨.str "Yes", .num 100, .num 130, some ⟨2022, 1, 1⟩, some ⟨2025, 2, 10⟩⟩ : ShopRow) ∈
      subset_b [⟨.str "Yes", .num 100, .num 130, some ⟨2022, 1, 1⟩, some ⟨2025, 2, 10⟩⟩] :=
  ⟨((subset_partition_spec _ _ (by simp)).1).mpr
      ⟨⟨⟨2019, 6, 1⟩, rfl, rfl⟩, ⟨⟨2025, 2, 10⟩, rfl, rfl⟩⟩,
   ((subset_partition_spec _ _ (by simp)).2.1).mpr
      (fun hq => by
        obtain ⟨⟨d, hd, hlt⟩, -⟩ := hq
        cases hd
        simp [dateLt] at hlt)⟩

/-- A successful `Option`-valued `mapM` preserves the length. -/
theorem mapM_option_some_length {α β : Type} (f : α → Option β) :
    ∀ {l : List α} {l' : List β}, l.mapM f = some l' → l'.length = l.length := by
  intro l
  rw [← List.mapM'_eq_mapM]
  induction l with
  | nil =>
    intro l' h
    simp [List.mapM'] at h
    simp [← h]
  | cons a l ih =>
    intro l' h
    simp only [List.mapM'] at h
    cases hfa : f a with
    | none => rw [hfa] at h; simp at h
    | some b =>
      rw [hfa] at h
      cases hml : l.mapM' f with
      | none => rw [hml] at h; simp at h
      | some bs =>
        rw [hml] at h
        simp at h
        rw [← h]
        simp [ih hml]

/-- In a `≤`-sorted nonempty list, the head is below every element. -/
theorem pairwise_head_le {α : Type} [Preorder α] {a : α} {l : List α}
    (h : (a :: l).Pairwise (· ≤ ·)) : ∀ x ∈ a :: l, a ≤ x := by
  intro x hx
  rcases List.mem_cons.mp hx with rfl | hx
  · exact le_refl x
  · exact (List.pairwise_cons.mp h).1 x hx

/-- In a `≤`-sorted nonempty list, every element is below the last. -/
theorem pairwise_le_getLastD {α : Type} [Preorder α] : ∀ {a : α} {l : List α},
    (a :: l).Pairwise (· ≤ ·) → ∀ x ∈ a :: l, x ≤ l.getLastD a := by
  intro a l
  induction l generalizing a with
  | nil =>
    intro h x hx
    simp at hx
    subst hx
    simp [List.getLastD]
  | cons b l ih =>
    intro h x hx
    have h' := List.pairwise_cons.mp h
    rw [List.getLastD_cons]
    rcases List.mem_cons.mp hx with rfl | hx2
    · exact h'.1 _ (List.getLastD_mem_cons _ _)
    · exact ih h'.2 x hx2

/-- On a successful CDX response with at least two rows, each carrying
a second column, the archive lookup returns the reformatted minimum and
maximum of the timestamp column. -/
theorem archive_success (url : String) (data : List (List String)) (ts : List String)
    (hurl : url ≠ "") (hlen : 2 ≤ data.length)
    (hmapM : (data.drop 1).mapM (fun entry => entry.get? 1) = some ts) :
    ∃ tmin tmax,
      get_oldest_and_newest_archive_date url (.resp 200 data) =
        (some (format_archive_date tmin), some (format_archive_date tmax)) ∧
      tmin ∈ ts ∧ tmax ∈ ts ∧ (∀ x ∈ ts, tmin ≤ x) ∧ (∀ x ∈ ts, x ≤ tmax) := by
  have hts_len : ts.length = (data.drop 1).length := mapM_option_some_length _ hmapM
  have hts_ne : ts ≠ [] := by
    intro h
    rw [h] at hts_len
    simp [List.length_drop] at hts_len
    omega
  have hperm := List.mergeSort_perm ts (fun a b => a ≤ b)
  have hsne : ts.mergeSort (fun a b => a ≤ b) ≠ [] := by
    intro h
    rw [h] at hperm
    exact hts_ne hperm.symm.eq_nil
  obtain ⟨t, rest, hcons⟩ := List.exists_cons_of_ne_nil hsne
  have hsorted := @List.sorted_mergeSort String (fun a b => (a ≤ b : Bool))
    (fun a b c h1 h2 =>
      decide_eq_true (le_trans (of_decide_eq_true h1) (of_decide_eq_true h2)))
    (fun a b => by
      simp only [Bool.or_eq_true, decide_eq_true_eq]
      exact le_total a b)
    ts
  rw [hcons] at hsorted
  have hsorted' : (t :: rest).Pairwise (· ≤ ·) :=
    hsorted.imp (fun h => of_decide_eq_true h)
  refine ⟨t, rest.getLastD t, ?_, ?_, ?_, ?_, ?_⟩
  · have hnlt : ¬(data.length < 2) := by omega
    unfold get_oldest_and_newest_archive_date
    simp only [if_neg hurl, ne_eq, not_true_eq_false, if_neg hnlt, if_false,
      ite_false, hmapM, hcons]
  · exact List.mem_mergeSort.mp (hcons ▸ List.mem_cons_self t rest)
  · exact List.mem_mergeSort.mp (hcons ▸ List.getLastD_mem_cons rest t)
  · intro x hx
    have hx' : x ∈ t :: rest := hcons ▸ List.mem_mergeSort.mpr hx
    exact pairwise_head_le hsorted' x hx'
  · intro x hx
    have hx' : x ∈ t :: rest := hcons ▸ List.mem_mergeSort.mpr hx
    exact pairwise_le_getLastD hsorted' x hx'

/-- C4: the archive lookup returns `(None, None)` for an empty website
string independently of the network (no call is observable), for a
raised exception, for a non-200 status, for fewer than two JSON rows,
and for a row without a second column; otherwise it returns the
minimum and maximum timestamp of the sorted column, each reformatted
by slicing the first 8 characters, with `20190315120000` formatting to
`2019-03-15`. -/
theorem archive_lookup_spec :
    (∀ net, get_oldest_and_newest_archive_date "" net = (Option.none, Option.none)) ∧
    (∀ url, get_oldest_and_newest_archive_date url .exn = (Option.none, Option.none)) ∧
    (∀ (url : String) (status : ℤ) (data : List (List String)), status ≠ 200 →
      get_oldest_and_newest_archive_date url (.resp status data) =
        (Option.none, Option.none)) ∧
    (∀ (url : String) (status : ℤ) (data : List (List String)), data.length < 2 →
      get_oldest_and_newest_archive_date url (.resp status data) =
        (Option.none, Option.none)) ∧
    (∀ (url : String) (data : List (List String)),
      (data.drop 1).mapM (fun entry => entry.get? 1) = Option.none →
      get_oldest_and_newest_archive_date url (.resp 200 data) =
        (Option.none, Option.none)) ∧
    (∀ (url : String) (data : List (List String)) (ts : List String),
      url ≠ "" → 2 ≤ data.length →
      (data.drop 1).mapM (fun entry => entry.get? 1) = some ts →
      ∃ tmin tmax,
        get_oldest_and_newest_archive_date url (.resp 200 data) =
          (some (format_archive_date tmin), some (format_archive_date tmax)) ∧
        tmin ∈ ts ∧ tmax ∈ ts ∧ (∀ x ∈ ts, tmin ≤ x) ∧ (∀ x ∈ ts, x ≤ tmax)) ∧
    format_archive_date "20190315120000" = "2019-03-15" := by
  refine ⟨?_, ?_, ?_, ?_, ?_, archive_success, rfl⟩
  · intro net
    unfold get_oldest_and_newest_archive_date
    rw [if_pos rfl]
  · intro url
    by_cases h : url = "" <;> simp [get_oldest_and_newest_archive_date, h]
  · intro url status data hstatus
    by_cases h : url = "" <;> simp [get_oldest_and_newest_archive_date, h, hstatus]
  · intro url status data hshort
    by_cases h : url = "" <;>
      by_cases hs : status = 200 <;>
      simp [get_oldest_and_newest_archive_date, h, hs, hshort]
  · intro url data hmapM
    by_cases h : url = ""
    · simp [get_oldest_and_newest_archive_date, h]
    · by_cases hshort : data.length < 2
      · simp [get_oldest_and_newest_archive_date, h, hshort]
      · simp only [List.get?_eq_getElem?] at hmapM
        have hloop : List.mapM.loop (fun entry => entry[1]?) data.tail [] = Option.none := by
          rw [← List.drop_one]
          exact hmapM
        simp [get_oldest_and_newest_archive_date, h, hshort, hloop]

/-- Witness for C4: the empty URL, a 404 response, and a successful
two-row response around the spec's example timestamp. -/
theorem archive_lookup_spec_witness :
    get_oldest_and_newest_archive_date "" (.resp 200 [["a"], ["b"]]) =
      (Option.none, Option.none) ∧
    get_oldest_and_newest_archive_date "http://a.example" (.resp 404 [[], []]) =
      (Option.none, Option.none) ∧
    (∃ tmin tmax,
      get_oldest_and_newest_archive_date "http://a.example"
        (.resp 200 [[], ["x", "20190315120000"], ["x", "20200101000000"]]) =
        (some (format_archive_date tmin), some (format_archive_date tmax)) ∧
      tmin ∈ ["20190315120000", "20200101000000"] ∧
      tmax ∈ ["20190315120000", "20200101000000"] ∧
      (∀ x ∈ ["20190315120000", "20200101000000"], tmin ≤ x) ∧
      (∀ x ∈ ["20190315120000", "20200101000000"], x ≤ tmax)) :=
  ⟨archive_lookup_spec.1 _,
   archive_lookup_spec.2.2.1 _ 404 _ (by decide),
   archive_lookup_spec.2.2.2.2.2.1 _ _ _ (by decide) (by decide) rfl⟩

/-- Lexicographic comparison of two nonempty lists, unfolded one step. -/
theorem lex_cons_iff_lt {α : Type} [LinearOrder α] {a b : α} {l₁ l₂ : List α} :
    List.Lex (· < ·) (a :: l₁) (b :: l₂) ↔ a < b ∨ (a = b ∧ List.Lex (· < ·) l₁ l₂) := by
  constructor
  · intro h
    cases h with
    | cons h => exact Or.inr ⟨rfl, h⟩
    | rel h => exact Or.inl h
  · rintro (h | ⟨rfl, h⟩)
    · exact List.Lex.rel h
    · exact List.Lex.cons h

/-- Lexicographic comparison distributes over appends whose left parts
have equal length. -/
theorem lex_append_iff_lt {α : Type} [LinearOrder α] :
    ∀ {p₁ p₂ s₁ s₂ : List α}, p₁.length = p₂.length →
      (List.Lex (· < ·) (p₁ ++ s₁) (p₂ ++ s₂) ↔
        List.Lex (· < ·) p₁ p₂ ∨ (p₁ = p₂ ∧ List.Lex (· < ·) s₁ s₂)) := by
  intro p₁
  induction p₁ with
  | nil =>
    intro p₂ s₁ s₂ hl
    cases p₂ with
    | nil => simp
    | cons b p₂ => simp at hl
  | cons a p₁ ih =>
    intro p₂ s₁ s₂ hl
    cases p₂ with
    | nil => simp at hl
    | cons b p₂ =>
      simp only [List.cons_append]
      rw [lex_cons_iff_lt, lex_cons_iff_lt]
      have hl' : p₁.length = p₂.length := by simpa using hl
      rw [ih hl']
      constructor
      · rintro (hab | ⟨rfl, (h | ⟨rfl, h⟩)⟩)
        · exact Or.inl (Or.inl hab)
        · exact Or.inl (Or.inr ⟨rfl, h⟩)
        · exact Or.inr ⟨rfl, h⟩
      · rintro ((hab | ⟨rfl, h⟩) | ⟨heq, h⟩)
        · exact Or.inl hab
        · exact Or.inr ⟨rfl, Or.inl h⟩
        · injection heq with h1 h2
          subst h1
          subst h2
          exact Or.inr ⟨rfl, Or.inr ⟨rfl, h⟩⟩

/-- Reformatting is monotone on strings of length 14: the dashes are
inserted at the same positions on both sides, so the comparison only
ever reaches positions where either both sides carry a dash or both
carry original characters in original order. -/
theorem format_archive_date_mono {s t : String}
    (hs : s.data.length = 14) (ht : t.data.length = 14) (h : s ≤ t) :
    format_archive_date s ≤ format_archive_date t := by
  rw [String.le_iff_toList_le] at h ⊢
  show (format_archive_date s).data ≤ (format_archive_date t).data
  have hfmt : ∀ u : String, (format_archive_date u).data =
      u.data.take 4 ++ '-' :: ((u.data.drop 4).take 2 ++ '-' :: (u.data.drop 6).take 2) := by
    intro u
    simp [format_archive_date]
  rw [hfmt, hfmt]
  replace h : s.data ≤ t.data := h
  rcases lt_or_eq_of_le h with hlt | heq
  swap
  · rw [heq]
  have hlex : List.Lex (· < ·) s.data t.data := hlt
  have len4 : (s.data.take 4).length = (t.data.take 4).length := by
    simp [List.length_take, hs, ht]
  have len24 : ((s.data.drop 4).take 2).length = ((t.data.drop 4).take 2).length := by
    simp [List.length_take, List.length_drop, hs, ht]
  have hdec : ∀ u : String, u.data = u.data.take 4 ++
      ((u.data.drop 4).take 2 ++ u.data.drop 6) := by
    intro u
    have h1 : (u.data.drop 4).take 2 ++ (u.data.drop 4).drop 2 = u.data.drop 4 :=
      List.take_append_drop 2 _
    have h2 : (u.data.drop 4).drop 2 = u.data.drop 6 := by
      rw [List.drop_drop]
    rw [← h2, h1, List.take_append_drop]
  rw [hdec s, hdec t] at hlex
  rw [lex_append_iff_lt len4] at hlex
  rcases hlex with h4 | ⟨e4, hrest⟩
  · apply le_of_lt
    show List.Lex (· < ·) _ _
    rw [lex_append_iff_lt len4]
    exact Or.inl h4
  · rw [lex_append_iff_lt len24] at hrest
    rcases hrest with h2 | ⟨e2, h6⟩
    · apply le_of_lt
      show List.Lex (· < ·) _ _
      rw [lex_append_iff_lt len4]
      refine Or.inr ⟨e4, List.Lex.cons ?_⟩
      rw [lex_append_iff_lt len24]
      exact Or.inl h2
    · have len26 : ((s.data.drop 6).take 2).length = ((t.data.drop 6).take 2).length := by
        simp [List.length_take, List.length_drop, hs, ht]
      have hdec6 : ∀ u : String, u.data.drop 6 =
          (u.data.drop 6).take 2 ++ (u.data.drop 6).drop 2 := by
        intro u
        rw [List.take_append_drop]
      rw [hdec6 s, hdec6 t] at h6
      rw [lex_append_iff_lt len26] at h6
      rcases h6 with h26 | ⟨e26, _⟩
      · apply le_of_lt
        show List.Lex (· < ·) _ _
        rw [lex_append_iff_lt len4]
        refine Or.inr ⟨e4, List.Lex.cons ?_⟩
        rw [lex_append_iff_lt len24]
        exact Or.inr ⟨e2, List.Lex.cons h26⟩
      · rw [e4, e2, e26]

/-- Reformatting a 14-digit compact timestamp yields a `YYYY-MM-DD`
shaped string. -/
theorem isDashedDate_format {s : String} (h : isCompactTimestamp s = true) :
    isDashedDate (format_archive_date s) = true := by
  rcases s with ⟨l⟩
  simp only [isCompactTimestamp, Bool.and_eq_true, decide_eq_true_eq,
    List.all_eq_true] at h
  obtain ⟨hlen, hdig⟩ := h
  rcases l with _ | ⟨c1, l⟩; · simp at hlen
  rcases l with _ | ⟨c2, l⟩; · simp at hlen
  rcases l with _ | ⟨c3, l⟩; · simp at hlen
  rcases l with _ | ⟨c4, l⟩; · simp at hlen
  rcases l with _ | ⟨c5, l⟩; · simp at hlen
  rcases l with _ | ⟨c6, l⟩; · simp at hlen
  rcases l with _ | ⟨c7, l⟩; · simp at hlen
  rcases l with _ | ⟨c8, l⟩; · simp at hlen
  rcases l with _ | ⟨c9, l⟩; · simp at hlen
  rcases l with _ | ⟨c10, l⟩; · simp at hlen
  rcases l with _ | ⟨c11, l⟩; · simp at hlen
  rcases l with _ | ⟨c12, l⟩; · simp at hlen
  rcases l with _ | ⟨c13, l⟩; · simp at hlen
  rcases l with _ | ⟨c14, l⟩; · simp at hlen
  rcases l with _ | ⟨c15, l⟩
  swap
  · simp at hlen
  simp only [List.mem_cons, List.not_mem_nil, or_false, forall_eq_or_imp, forall_eq] at hdig
  simp only [isDashedDate, format_archive_date, List.take, List.drop, List.cons_append,
    List.nil_append, Bool.and_eq_true]
  obtain ⟨h1, h2, h3, h4, h5, h6, h7, h8, h9, h10, h11, h12, h13, h14⟩ := hdig
  exact ⟨⟨⟨⟨⟨⟨⟨h1, h2⟩, h3⟩, h4⟩, h5⟩, h6⟩, h7⟩, h8⟩

/-- C10, amended: the archive lookup never returns a mixed pair — for
every input it returns either two `None`s or two `some`s; and when the
response's timestamp column consists of 14-digit compact timestamps
(the snapshot index's documented format), the two returned strings are
`YYYY-MM-DD` shaped with the oldest lexicographically at most the
newest. -/
theorem archive_pair_invariant :
    (∀ url net,
      get_oldest_and_newest_archive_date url net = (Option.none, Option.none) ∨
      ∃ so sn, get_oldest_and_newest_archive_date url net = (some so, some sn)) ∧
    (∀ (url : String) (data : List (List String)) (ts : List String),
      url ≠ "" → 2 ≤ data.length →
      (data.drop 1).mapM (fun entry => entry.get? 1) = some ts →
      (∀ x ∈ ts, isCompactTimestamp x = true) →
      ∃ so sn,
        get_oldest_and_newest_archive_date url (.resp 200 data) = (some so, some sn) ∧
        isDashedDate so = true ∧ isDashedDate sn = true ∧ so ≤ sn) := by
  constructor
  · intro url net
    unfold get_oldest_and_newest_archive_date
    repeat' split
    all_goals first
      | exact Or.inl rfl
      | exact Or.inr ⟨_, _, rfl⟩
  · intro url data ts hurl hlen hmapM hcompact
    obtain ⟨tmin, tmax, heq, hmin_mem, hmax_mem, hminle, hlemax⟩ :=
      archive_success url data ts hurl hlen hmapM
    have l1 : tmin.data.length = 14 := by
      have hc := hcompact tmin hmin_mem
      simp only [isCompactTimestamp, Bool.and_eq_true, decide_eq_true_eq] at hc
      exact hc.1
    have l2 : tmax.data.length = 14 := by
      have hc := hcompact tmax hmax_mem
      simp only [isCompactTimestamp, Bool.and_eq_true, decide_eq_true_eq] at hc
      exact hc.1
    exact ⟨format_archive_date tmin, format_archive_date tmax, heq,
      isDashedDate_format (hcompact tmin hmin_mem),
      isDashedDate_format (hcompact tmax hmax_mem),
      format_archive_date_mono l1 l2 (hminle tmax hmax_mem)⟩

/-- Witness for C10 (amended) on a successful two-timestamp response. -/
theorem archive_pair_invariant_witness :
    (get_oldest_and_newest_archive_date "" .exn = (Option.none, Option.none) ∨
      ∃ so sn, get_oldest_and_newest_archive_date "" .exn = (some so, some sn)) ∧
    ∃ so sn,
      get_oldest_and_newest_archive_date "http://a.example"
        (.resp 200 [[], ["x", "20190315120000"], ["x", "20200101000000"]]) =
        (some so, some sn) ∧
      isDashedDate so = true ∧ isDashedDate sn = true ∧ so ≤ sn :=
  ⟨archive_pair_invariant.1 "" .exn,
   archive_pair_invariant.2 "http://a.example" _ ["20190315120000", "20200101000000"]
     (by decide) (by decide) rfl (by decide)⟩

unseal List.merge List.mergeSort String.ltb in
/-- C10, counterexample: on a (malformed) response whose timestamp
column is not made of 14-digit timestamps, both returned values are
non-null but the first is not `YYYY-MM-DD` shaped and is
lexicographically greater than the second. -/
theorem archive_pair_invariant_counterexample :
    get_oldest_and_newest_archive_date "http://x"
      (.resp 200 [[], ["u", "1234"], ["u", "1234!"]]) =
      (some "1234--", some "1234-!-") ∧
    ¬(("1234--" : String) ≤ "1234-!-") ∧
    isDashedDate "1234--" = false := by
  refine ⟨rfl, ?_, rfl⟩
  rw [String.le_iff_toList_le]
  decide
